import Mathlib

/-!
Verification development for the Synthia native backend
(src-tauri/src/pty.rs, src-tauri/src/streaming.rs, src-tauri/src/lib.rs).

The Rust code is shallowly embedded: the PTY session registry is an
association list guarded by a (always-succeeding) mutex, the per-session
writer is a byte buffer that records every written byte in order, the
stream-session slot is an `Option`, and the capture-loop frame transform
is a pure function from a BGRA frame to the published byte buffer.
Fallible operations return `Except String`, mirroring the
`Result<_, String>` signatures of the Tauri commands; OS-dependent
outcomes (openpty, shell spawn, capture support, permission, bind) are
supplied through explicit environment records.
-/

-- =============================================================================
-- PTY session registry (src-tauri/src/pty.rs)
-- =============================================================================

/-- One PTY session (pty.rs `PtySession`): the writer is modelled as the
byte sequence written to the PTY input side so far; `rows`/`cols` model the
master's current size; `childPid` models `child.process_id()`. -/
structure PtySession where
  writerBuf : List UInt8
  rows : Nat
  cols : Nat
  childPid : Option Nat
deriving DecidableEq, Repr

/-- The registry (pty.rs `PtyState`): `sessions: Mutex<HashMap<String, PtySession>>`,
modelled as an association list (the mutex always succeeds; HashMap keys are
unique because insertion only happens after a negative `contains_key` check). -/
structure PtyState where
  sessions : List (String × PtySession)
deriving DecidableEq, Repr

/-- `sessions.contains_key(&session_id)`. -/
def containsSession (st : PtyState) (sid : String) : Bool :=
  st.sessions.any (fun p => p.1 == sid)

/-- `sessions.get(&session_id)`. -/
def findSession (st : PtyState) (sid : String) : Option PtySession :=
  (st.sessions.find? (fun p => p.1 == sid)).map (fun p => p.2)

/-- Replace the session stored under `sid` (in-place mutation through the
`MutexGuard` in the Rust code). -/
def updateSession (st : PtyState) (sid : String) (f : PtySession → PtySession) : PtyState :=
  ⟨st.sessions.map (fun p => if p.1 == sid then (p.1, f p.2) else p)⟩

/-- Count of OS resources acquired during one `spawn_terminal` call:
pseudo-terminal pairs opened and child processes spawned. -/
structure SpawnEffects where
  ptysOpened : Nat
  childrenSpawned : Nat
deriving DecidableEq, Repr

/-- Outcomes of the fallible OS steps inside `spawn_terminal`:
`openpty`, `slave.spawn_command`, `master.take_writer`,
`master.try_clone_reader`, and the pid the child would report. -/
structure SpawnEnv where
  openptyOk : Bool
  spawnOk : Bool
  childPid : Option Nat
  takeWriterOk : Bool
  cloneReaderOk : Bool
deriving DecidableEq, Repr

/-- pty.rs `spawn_terminal`: generate/accept the session id; if a session
with that id already exists return it unchanged; otherwise open a PTY pair
(24 rows x 80 cols), spawn the shell, take writer and reader, and insert the
new session into the registry.  The returned `SpawnEffects` counts the
OS resources acquired by this call. -/
def spawn_terminal (env : SpawnEnv) (st : PtyState) (session_id : Option String)
    (freshUuid : String) : Except String String × PtyState × SpawnEffects :=
  let sid := session_id.getD freshUuid
  if containsSession st sid then
    (Except.ok sid, st, ⟨0, 0⟩)
  else if !env.openptyOk then
    (Except.error "Failed to open PTY", st, ⟨0, 0⟩)
  else if !env.spawnOk then
    (Except.error "Failed to spawn shell", st, ⟨1, 0⟩)
  else if !env.takeWriterOk then
    (Except.error "Failed to get PTY writer", st, ⟨1, 1⟩)
  else if !env.cloneReaderOk then
    (Except.error "Failed to get PTY reader", st, ⟨1, 1⟩)
  else
    (Except.ok sid, ⟨(sid, ⟨[], 24, 80, env.childPid⟩) :: st.sessions⟩, ⟨1, 1⟩)

/-- pty.rs `TerminalInfo`. -/
structure TerminalInfo where
  session_id : String
  is_alive : Bool
deriving DecidableEq, Repr

/-- pty.rs `list_terminals`: every registry key with `is_alive: true`. -/
def list_terminals (st : PtyState) : List TerminalInfo :=
  st.sessions.map (fun p => ⟨p.1, true⟩)

/-- pty.rs `write_terminal`: not-found when the id is absent; otherwise
`write_all(data)` then `flush` on the session writer. -/
def write_terminal (st : PtyState) (sid : String) (data : List UInt8) :
    Except String Unit × PtyState :=
  match findSession st sid with
  | none => (Except.error ("Session not found: " ++ sid), st)
  | some _ =>
    (Except.ok (), updateSession st sid (fun s => { s with writerBuf := s.writerBuf ++ data }))

/-- pty.rs `resize_terminal`: not-found when the id is absent; otherwise
apply the new master size. -/
def resize_terminal (st : PtyState) (sid : String) (rows cols : Nat) :
    Except String Unit × PtyState :=
  match findSession st sid with
  | none => (Except.error ("Session not found: " ++ sid), st)
  | some _ =>
    (Except.ok (), updateSession st sid (fun s => { s with rows := rows, cols := cols }))

/-- pty.rs `kill_terminal`: `sessions.remove` (not-found when absent), then
`kill_session` runs on the extracted session (process-group signalling and
reaping, which do not touch the registry). -/
def kill_terminal (st : PtyState) (sid : String) : Except String Unit × PtyState :=
  if containsSession st sid then
    (Except.ok (), ⟨st.sessions.filter (fun p => !(p.1 == sid))⟩)
  else
    (Except.error ("Session not found: " ++ sid), st)

/-- pty.rs `inject_command`: not-found when absent; otherwise write the
command bytes, a newline, and flush. -/
def inject_command (st : PtyState) (sid : String) (command : String) :
    Except String Unit × PtyState :=
  match findSession st sid with
  | none => (Except.error ("Session not found: " ++ sid), st)
  | some _ =>
    (Except.ok (), updateSession st sid (fun s =>
      { s with writerBuf := s.writerBuf ++ command.toUTF8.toList ++ [10] }))

/-- pty.rs `inject_commands`: for each command (registry lookup per
iteration) write the command plus newline and flush; 100 ms sleep between
commands does not affect state.  An empty list performs no iteration. -/
def inject_commands (st : PtyState) (sid : String) (commands : List String) :
    Except String Unit × PtyState :=
  match commands with
  | [] => (Except.ok (), st)
  | command :: rest =>
    match findSession st sid with
    | none => (Except.error ("Session not found: " ++ sid), st)
    | some _ =>
      inject_commands
        (updateSession st sid (fun s =>
          { s with writerBuf := s.writerBuf ++ command.toUTF8.toList ++ [10] }))
        sid rest

-- =============================================================================
-- Streaming state and commands (src-tauri/src/streaming.rs)
-- =============================================================================

def STREAM_PORT_MIN : Nat := 9100

def STREAM_PORT_MAX : Nat := 9199

def MAX_FPS : Nat := 30

def STREAM_MAX_WIDTH : Nat := 960

/-- streaming.rs `StreamSession` (the parts visible to the commands:
parameter snapshot and the atomic client counter; the shutdown sender and
join handles are lifecycle-only). -/
structure StreamSession where
  port : Nat
  fps : Nat
  quality : Int
  display_id : Option Nat
  client_count : Nat
deriving DecidableEq, Repr

/-- streaming.rs `StreamStatus`. -/
structure StreamStatus where
  active : Bool
  port : Nat
  fps : Nat
  quality : Int
  clients : Nat
  display_id : Option Nat
deriving DecidableEq, Repr

/-- Outcomes of the OS-dependent steps in `start_local_stream`:
`scap::is_supported`, `scap::has_permission`, the TCP bind, and the port
reported by `listener.local_addr()` (the code falls back to the requested
port when `local_addr` fails). -/
structure StreamEnv where
  isSupported : Bool
  hasPermission : Bool
  bindOk : Bool
  bindErr : String
  localAddrPort : Option Nat
deriving DecidableEq, Repr

/-- streaming.rs `start_local_stream`: conflict if the slot is non-empty;
validate quality, fps, port with explicit errors; check platform support,
permission, bind; then install the session and return the active status. -/
def start_local_stream (env : StreamEnv) (slot : Option StreamSession)
    (port : Nat) (quality : Int) (fps : Nat) (display_id : Option Nat) :
    Except String StreamStatus × Option StreamSession :=
  if slot.isSome then
    (Except.error "Stream already running. Stop it first.", slot)
  else if ¬(1 ≤ quality ∧ quality ≤ 100) then
    (Except.error ("Quality must be 1-100, got: " ++ toString quality), slot)
  else if ¬(1 ≤ fps ∧ fps ≤ MAX_FPS) then
    (Except.error ("FPS must be 1-" ++ toString MAX_FPS ++ ", got: " ++ toString fps), slot)
  else if ¬(STREAM_PORT_MIN ≤ port ∧ port ≤ STREAM_PORT_MAX) then
    (Except.error ("Streaming port must be " ++ toString STREAM_PORT_MIN ++ "-"
      ++ toString STREAM_PORT_MAX ++ ", got: " ++ toString port), slot)
  else if !env.isSupported then
    (Except.error "Screen capture not supported on this platform", slot)
  else if !env.hasPermission then
    (Except.error
      "Screen capture permission not granted. Please allow in System Settings and restart.",
      slot)
  else if !env.bindOk then
    (Except.error ("Failed to bind port " ++ toString port ++ ": " ++ env.bindErr), slot)
  else
    let actual_port := env.localAddrPort.getD port
    (Except.ok ⟨true, actual_port, fps, quality, 0, display_id⟩,
      some ⟨actual_port, fps, quality, display_id, 0⟩)

/-- streaming.rs `stop_local_stream`: `session.take()`; on `Some`, signal
shutdown, await the server task, join the capture thread (effects on
handles only) and leave the slot empty; on `None`, conflict error. -/
def stop_local_stream (slot : Option StreamSession) :
    Except String Unit × Option StreamSession :=
  match slot with
  | some _ => (Except.ok (), none)
  | none => (Except.error "No stream is running", none)

/-- streaming.rs `get_stream_status`: read-only; all-zero inactive status
when the slot is empty. -/
def get_stream_status (slot : Option StreamSession) : Except String StreamStatus :=
  match slot with
  | some s => Except.ok ⟨true, s.port, s.fps, s.quality, s.client_count, s.display_id⟩
  | none => Except.ok ⟨false, 0, 0, 0, 0, none⟩

-- =============================================================================
-- Capture-loop frame transform (streaming.rs capture thread body)
-- =============================================================================

/-- A BGRA video frame as delivered by scap (`VideoFrame::BGRA`):
width, height, and the pixel byte buffer. -/
structure BGRAFrame where
  width : Nat
  height : Nat
  data : List UInt8
deriving DecidableEq, Repr

/-- The nearest-neighbour downscale factor:
`if width > STREAM_MAX_WIDTH { width.div_ceil(STREAM_MAX_WIDTH) } else { 1 }`
(`div_ceil` on naturals is `(width + 959) / 960`). -/
def frameScale (width : Nat) : Nat :=
  if STREAM_MAX_WIDTH < width then
    (width + (STREAM_MAX_WIDTH - 1)) / STREAM_MAX_WIDTH
  else 1

/-- `(n as u16).to_le_bytes()`. -/
def u16leBytes (n : Nat) : List UInt8 :=
  [UInt8.ofNat (n % 256), UInt8.ofNat (n / 256 % 256)]

/-- Read a little-endian u16 from bytes `i` and `i+1`. -/
def readU16LE (l : List UInt8) (i : Nat) : Nat :=
  (l.getD i 0).toNat + 256 * (l.getD (i + 1) 0).toNat

/-- The four output bytes produced for one destination pixel whose source
pixel starts at byte `si`: `[B+2, B+1, B, B+3]` of the BGRA source, i.e.
RGBA order.  Indexing is modelled with `getD` (the loop proves in-bounds
separately). -/
def bgraPixelAt (data : List UInt8) (si : Nat) : List UInt8 :=
  [data.getD (si + 2) 0, data.getD (si + 1) 0, data.getD si 0, data.getD (si + 3) 0]

/-- The pixel region written by the capture loop: the `scale == 1` branch
iterates `i` over `0..src_w*src_h` with `si = i*4`; the downscale branch
iterates rows `y` and columns `x` with
`si = (y*scale*src_w + x*scale) * 4`. -/
def framePixels (f : BGRAFrame) : List UInt8 :=
  if frameScale f.width = 1 then
    (List.range (f.width * f.height)).flatMap (fun i => bgraPixelAt f.data (i * 4))
  else
    (List.range (f.height / frameScale f.width)).flatMap (fun y =>
      (List.range (f.width / frameScale f.width)).flatMap (fun x =>
        bgraPixelAt f.data
          ((y * frameScale f.width * f.width + x * frameScale f.width) * 4)))

/-- One iteration of the capture loop on a BGRA frame: skip (`none`) when
width or height is zero or when `data.len() < width*height*4`; otherwise
publish the 4-byte LE header (`dst_w as u16`, `dst_h as u16`) followed by
the transformed pixels. -/
def processFrame (f : BGRAFrame) : Option (List UInt8) :=
  if f.width = 0 ∨ f.height = 0 then none
  else if f.data.length < f.width * f.height * 4 then none
  else
    some (u16leBytes (f.width / frameScale f.width)
      ++ u16leBytes (f.height / frameScale f.width)
      ++ framePixels f)

/-- The RGBA output channel `c` is taken from source channel `bgraSwap c`
of the BGRA pixel (B and R swapped, G and A in place). -/
def bgraSwap : Nat → Nat
  | 0 => 2
  | 1 => 1
  | 2 => 0
  | _ => 3

-- =============================================================================
-- WebSocket handshake and per-client loop (streaming.rs)
-- =============================================================================

/-- streaming.rs `ALLOWED_ORIGINS`. -/
def ALLOWED_ORIGINS : List String :=
  ["tauri://localhost", "https://tauri.localhost", "http://localhost:1420"]

/-- streaming.rs `is_allowed_origin`: exact string match against the
allowlist. -/
def is_allowed_origin (origin : String) : Bool :=
  ALLOWED_ORIGINS.any (fun a => a == origin)

/-- One arm of the per-client `select!`: a latest-frame change notification
(with the snapshot read and whether the send would succeed), closure of the
frame channel, an incoming WebSocket message (`ok` = `Some(Ok(_))`), or a
shutdown-signal change carrying the flag value. -/
inductive ClientEvent where
  | frameChanged (frame : List UInt8) (sendOk : Bool)
  | frameChanClosed
  | wsMessage (ok : Bool)
  | shutdownSignal (value : Bool)
deriving DecidableEq, Repr

/-- Whether the given event breaks out of the per-client loop: an empty
snapshot is skipped, a failed send breaks; channel closure breaks; a
stream end or error breaks; a shutdown signal with value `true` breaks. -/
def eventExits : ClientEvent → Bool
  | .frameChanged frame sendOk => if frame.isEmpty then false else !sendOk
  | .frameChanClosed => true
  | .wsMessage ok => !ok
  | .shutdownSignal v => v

/-- Whether a sequence of select outcomes makes the per-client loop exit. -/
def loopExits : List ClientEvent → Bool
  | [] => false
  | e :: es => eventExits e || loopExits es

/-- streaming.rs `handle_ws_client`: the handshake callback rejects with
an HTTP 403 response when the Origin header (absent or unreadable treated
as the empty string) is not allowlisted, and the counter is untouched; on
success the counter is incremented, the loop runs over the given select
outcomes, and the single post-loop decrement runs once the loop exits.
Returns the rejection status (`some 403` or `none`) and the net change to
the client counter after the call has gone as far as the events allow. -/
def handle_ws_client (origin : Option String) (events : List ClientEvent) :
    Option Nat × Int :=
  if is_allowed_origin (origin.getD "") then
    (none, if loopExits events then 0 else 1)
  else
    (some 403, 0)

-- =============================================================================
-- Command interface registration (src-tauri/src/lib.rs `run`)
-- =============================================================================

/-- The commands registered in lib.rs `run` via
`tauri::generate_handler![...]` (Tauri registers each handler under the
function's own name). -/
def registeredCommands : List String :=
  ["get_system_stats", "get_logs", "clear_logs", "get_log_path",
   "spawn_terminal", "write_terminal", "resize_terminal", "kill_terminal",
   "list_terminals", "inject_command", "inject_commands"]

/-- The PTY commands of the catalogue, as defined (`#[tauri::command]`)
in pty.rs. -/
def ptyTauriCommands : List String :=
  ["spawn_terminal", "write_terminal", "resize_terminal", "kill_terminal",
   "list_terminals", "inject_command", "inject_commands"]

/-- The streaming commands of the catalogue, as defined
(`#[tauri::command]`) in streaming.rs. -/
def streamingTauriCommands : List String :=
  ["list_displays", "start_local_stream", "stop_local_stream", "get_stream_status"]

-- =============================================================================
-- Helper lemmas
-- =============================================================================

lemma findSession_eq_none (st : PtyState) (sid : String)
    (h : containsSession st sid = false) : findSession st sid = none := by
  simp only [containsSession, List.any_eq_false] at h
  have hf : List.find? (fun p => p.1 == sid) st.sessions = none :=
    List.find?_eq_none.mpr h
  simp [findSession, hf]

-- =============================================================================
-- C1
-- =============================================================================

/-- C1: the spec's command catalogue promises registered handlers for the
streaming commands, but `run` in lib.rs registers only the system-stats,
logging and PTY handlers (`mod streaming` is never declared): every PTY
command of the catalogue is in the registered list while none of
`list_displays`, `start_local_stream`, `stop_local_stream`,
`get_stream_status` is. -/
theorem streaming_commands_not_registered :
    registeredCommands.contains "spawn_terminal" = true ∧
    registeredCommands.contains "write_terminal" = true ∧
    registeredCommands.contains "resize_terminal" = true ∧
    registeredCommands.contains "kill_terminal" = true ∧
    registeredCommands.contains "list_terminals" = true ∧
    registeredCommands.contains "inject_command" = true ∧
    registeredCommands.contains "inject_commands" = true ∧
    registeredCommands.contains "list_displays" = false ∧
    registeredCommands.contains "start_local_stream" = false ∧
    registeredCommands.contains "stop_local_stream" = false ∧
    registeredCommands.contains "get_stream_status" = false ∧
    streamingTauriCommands.all (fun c => !(registeredCommands.contains c)) = true := by
  decide

-- =============================================================================
-- C2
-- =============================================================================

/-- C2: spawn is idempotent per session id: when a session with id `sid`
already exists in the registry, `spawn_terminal` returns the same id,
leaves the registry (and hence the existing session) unchanged, opens no
pseudo-terminal and spawns no child process. -/
theorem spawn_terminal_idempotent (env : SpawnEnv) (st : PtyState)
    (sid freshUuid : String) (h : containsSession st sid = true) :
    spawn_terminal env st (some sid) freshUuid = (Except.ok sid, st, ⟨0, 0⟩) := by
  simp [spawn_terminal, h]

theorem spawn_terminal_idempotent_witness :
    containsSession ⟨[("s1", ⟨[], 24, 80, some 42⟩)]⟩ "s1" = true ∧
    spawn_terminal ⟨true, true, some 7, true, true⟩ ⟨[("s1", ⟨[], 24, 80, some 42⟩)]⟩
      (some "s1") "fresh" =
      (Except.ok "s1", ⟨[("s1", ⟨[], 24, 80, some 42⟩)]⟩, ⟨0, 0⟩) :=
  ⟨by decide, spawn_terminal_idempotent _ _ _ _ (by decide)⟩

-- =============================================================================
-- C3
-- =============================================================================

/-- C3: registry membership tracks spawn and kill: a successful
`spawn_terminal` returning id `sid` leaves `list_terminals` containing the
entry `{session_id := sid, is_alive := true}`, and a successful
`kill_terminal sid` leaves `list_terminals` with no entry for `sid`. -/
theorem registry_tracks_spawn_and_kill (env : SpawnEnv) (st : PtyState)
    (osid : Option String) (freshUuid sid : String) :
    (∀ st' eff, spawn_terminal env st osid freshUuid = (Except.ok sid, st', eff) →
      TerminalInfo.mk sid true ∈ list_terminals st') ∧
    (∀ st', kill_terminal st sid = (Except.ok (), st') →
      ∀ info ∈ list_terminals st', info.session_id ≠ sid) := by
  constructor
  · intro st' eff heq
    by_cases hc : containsSession st (osid.getD freshUuid) = true
    · have hs : spawn_terminal env st osid freshUuid =
          (Except.ok (osid.getD freshUuid), st, ⟨0, 0⟩) := by
        simp [spawn_terminal, hc]
      rw [hs] at heq
      simp only [Prod.mk.injEq, Except.ok.injEq] at heq
      obtain ⟨h1, h2, -⟩ := heq
      subst h2
      simp only [containsSession, List.any_eq_true] at hc
      obtain ⟨p, hp, hbeq⟩ := hc
      refine List.mem_map.mpr ⟨p, hp, ?_⟩
      have hp1 : p.1 = osid.getD freshUuid := by simpa using hbeq
      simp [hp1, h1]
    · by_cases ho : env.openptyOk = true
      · by_cases hsp : env.spawnOk = true
        · by_cases hw : env.takeWriterOk = true
          · by_cases hr : env.cloneReaderOk = true
            · have hs : spawn_terminal env st osid freshUuid =
                  (Except.ok (osid.getD freshUuid),
                   ⟨(osid.getD freshUuid, ⟨[], 24, 80, env.childPid⟩) :: st.sessions⟩,
                   ⟨1, 1⟩) := by
                simp [spawn_terminal, hc, ho, hsp, hw, hr]
              rw [hs] at heq
              simp only [Prod.mk.injEq, Except.ok.injEq] at heq
              obtain ⟨h1, h2, -⟩ := heq
              subst h2
              simp [list_terminals, h1]
            · simp [spawn_terminal, hc, ho, hsp, hw, hr] at heq
          · simp [spawn_terminal, hc, ho, hsp, hw] at heq
        · simp [spawn_terminal, hc, ho, hsp] at heq
      · simp [spawn_terminal, hc, ho] at heq
  · intro st' heq info hmem
    by_cases hc : containsSession st sid = true
    · have hs : kill_terminal st sid =
          (Except.ok (), ⟨st.sessions.filter (fun p => !(p.1 == sid))⟩) := by
        simp [kill_terminal, hc]
      rw [hs] at heq
      simp only [Prod.mk.injEq] at heq
      obtain ⟨-, h2⟩ := heq
      subst h2
      simp only [list_terminals, List.mem_map] at hmem
      obtain ⟨p, hp, rfl⟩ := hmem
      have hne := (List.mem_filter.mp hp).2
      simpa using hne
    · simp [kill_terminal, hc] at heq

theorem registry_tracks_spawn_and_kill_witness :
    TerminalInfo.mk "s2" true ∈ list_terminals ⟨[("s2", ⟨[], 24, 80, some 7⟩)]⟩ ∧
    ∀ info ∈ list_terminals (⟨[]⟩ : PtyState), info.session_id ≠ "s3" :=
  ⟨(registry_tracks_spawn_and_kill ⟨true, true, some 7, true, true⟩ ⟨[]⟩
      (some "s2") "fresh" "s2").1 ⟨[("s2", ⟨[], 24, 80, some 7⟩)]⟩ ⟨1, 1⟩ rfl,
   (registry_tracks_spawn_and_kill ⟨true, true, some 7, true, true⟩
      ⟨[("s3", ⟨[], 24, 80, none⟩)]⟩ (some "x") "fresh" "s3").2 ⟨[]⟩ rfl⟩

-- =============================================================================
-- C9
-- =============================================================================

/-- C9 (amended): for a session id absent from the registry, `write`,
`resize`, `kill`, `inject_command` fail with the not-found error and leave
the registry unchanged, and so does `inject_commands` for every *nonempty*
command list (`inject_commands` with the empty list returns `Ok` without a
lookup, see the counterexample). -/
theorem absent_session_not_found (st : PtyState) (sid : String)
    (h : containsSession st sid = false) (data : List UInt8) (rows cols : Nat)
    (cmd : String) (cmds : List String) :
    write_terminal st sid data = (Except.error ("Session not found: " ++ sid), st) ∧
    resize_terminal st sid rows cols = (Except.error ("Session not found: " ++ sid), st) ∧
    kill_terminal st sid = (Except.error ("Session not found: " ++ sid), st) ∧
    inject_command st sid cmd = (Except.error ("Session not found: " ++ sid), st) ∧
    (cmds ≠ [] → inject_commands st sid cmds =
      (Except.error ("Session not found: " ++ sid), st)) := by
  have hf : findSession st sid = none := findSession_eq_none st sid h
  refine ⟨?_, ?_, ?_, ?_, ?_⟩
  · simp [write_terminal, hf]
  · simp [resize_terminal, hf]
  · simp [kill_terminal, h]
  · simp [inject_command, hf]
  · intro hne
    cases cmds with
    | nil => exact absurd rfl hne
    | cons c rest => simp [inject_commands, hf]

theorem absent_session_not_found_witness :
    containsSession ⟨[]⟩ "ghost" = false ∧
    write_terminal ⟨[]⟩ "ghost" [] = (Except.error ("Session not found: " ++ "ghost"), ⟨[]⟩) ∧
    inject_commands ⟨[]⟩ "ghost" ["ls"] =
      (Except.error ("Session not found: " ++ "ghost"), ⟨[]⟩) := by
  have h := absent_session_not_found ⟨[]⟩ "ghost" (by decide) [] 1 1 "c" ["ls"]
  exact ⟨by decide, h.1, h.2.2.2.2 (by simp)⟩

/-- C9 counterexample: the claim quantifies over every command list, but
`inject_commands` called on an absent session id with the empty list
returns `Ok` (no registry lookup happens), not the not-found error. -/
theorem inject_commands_empty_not_found_counterexample :
    containsSession ⟨[]⟩ "ghost" = false ∧
    inject_commands ⟨[]⟩ "ghost" [] = (Except.ok (), ⟨[]⟩) :=
  ⟨rfl, rfl⟩

-- =============================================================================
-- C10
-- =============================================================================

/-- C10: `inject_commands` with an empty command list returns success for
every registry state and every session id — including absent ids — because
the loop body (and with it the registry lookup) never runs. -/
theorem inject_commands_empty_ok (st : PtyState) (sid : String) :
    inject_commands st sid [] = (Except.ok (), st) := rfl

-- =============================================================================
-- C4
-- =============================================================================

/-- C4: with an empty stream slot, `start_local_stream` passes validation
iff quality ∈ [1,100], fps ∈ [1,30] and port ∈ [9100,9199] (so with a
supportive environment it succeeds exactly then, and in-range boundary
values are accepted); each out-of-range parameter is rejected with an
explicit error that names the offending field and echoes the rejected
value, with no clamping. -/
theorem start_local_stream_validation (env : StreamEnv) (port : Nat) (quality : Int)
    (fps : Nat) (d : Option Nat) (hs : env.isSupported = true)
    (hp : env.hasPermission = true) (hb : env.bindOk = true) :
    ((start_local_stream env none port quality fps d).1.isOk = true ↔
      (1 ≤ quality ∧ quality ≤ 100 ∧ 1 ≤ fps ∧ fps ≤ 30 ∧ 9100 ≤ port ∧ port ≤ 9199)) ∧
    (¬(1 ≤ quality ∧ quality ≤ 100) →
      (start_local_stream env none port quality fps d).1 =
        Except.error ("Quality must be 1-100, got: " ++ toString quality)) ∧
    ((1 ≤ quality ∧ quality ≤ 100) → ¬(1 ≤ fps ∧ fps ≤ 30) →
      (start_local_stream env none port quality fps d).1 =
        Except.error ("FPS must be 1-" ++ toString MAX_FPS ++ ", got: " ++ toString fps)) ∧
    ((1 ≤ quality ∧ quality ≤ 100) → (1 ≤ fps ∧ fps ≤ 30) → ¬(9100 ≤ port ∧ port ≤ 9199) →
      (start_local_stream env none port quality fps d).1 =
        Except.error ("Streaming port must be " ++ toString STREAM_PORT_MIN ++ "-"
          ++ toString STREAM_PORT_MAX ++ ", got: " ++ toString port)) := by
  refine ⟨?_, ?_, ?_, ?_⟩
  · by_cases hq : 1 ≤ quality ∧ quality ≤ 100
    · by_cases hf : 1 ≤ fps ∧ fps ≤ 30
      · by_cases hpo : 9100 ≤ port ∧ port ≤ 9199
        · have hres : (start_local_stream env none port quality fps d).1 =
              Except.ok ⟨true, env.localAddrPort.getD port, fps, quality, 0, d⟩ := by
            simp [start_local_stream, MAX_FPS, STREAM_PORT_MIN, STREAM_PORT_MAX,
              hq, hf, hpo, hs, hp, hb]
          rw [hres]
          simp only [Except.isOk, Except.toBool, true_iff]
          tauto
        · have hres : (start_local_stream env none port quality fps d).1 =
              Except.error ("Streaming port must be " ++ toString STREAM_PORT_MIN ++ "-"
                ++ toString STREAM_PORT_MAX ++ ", got: " ++ toString port) := by
            simp [start_local_stream, MAX_FPS, STREAM_PORT_MIN, STREAM_PORT_MAX, hq, hf, hpo]
          rw [hres]
          simp only [Except.isOk, Except.toBool, false_iff]
          tauto
      · have hres : (start_local_stream env none port quality fps d).1 =
            Except.error ("FPS must be 1-" ++ toString MAX_FPS ++ ", got: " ++ toString fps) := by
          simp [start_local_stream, MAX_FPS, hq, hf]
        rw [hres]
        simp only [Except.isOk, Except.toBool, false_iff]
        tauto
    · have hres : (start_local_stream env none port quality fps d).1 =
          Except.error ("Quality must be 1-100, got: " ++ toString quality) := by
        simp [start_local_stream, hq]
      rw [hres]
      simp only [Except.isOk, Except.toBool, false_iff]
      tauto
  · intro hq
    simp [start_local_stream, hq]
  · intro hq hf
    simp [start_local_stream, MAX_FPS, hq, hf]
  · intro hq hf hpo
    simp [start_local_stream, MAX_FPS, STREAM_PORT_MIN, STREAM_PORT_MAX, hq, hf, hpo]

theorem start_local_stream_validation_witness :
    ((start_local_stream ⟨true, true, true, "", none⟩ none 9100 1 1 none).1.isOk = true) ∧
    ((start_local_stream ⟨true, true, true, "", none⟩ none 9199 100 30 none).1.isOk = true) ∧
    ((start_local_stream ⟨true, true, true, "", none⟩ none 9100 0 10 none).1 =
      Except.error ("Quality must be 1-100, got: " ++ toString (0 : Int))) ∧
    ((start_local_stream ⟨true, true, true, "", none⟩ none 9100 50 31 none).1 =
      Except.error ("FPS must be 1-" ++ toString MAX_FPS ++ ", got: " ++ toString (31 : Nat))) ∧
    ((start_local_stream ⟨true, true, true, "", none⟩ none 9099 50 10 none).1 =
      Except.error ("Streaming port must be " ++ toString STREAM_PORT_MIN ++ "-"
        ++ toString STREAM_PORT_MAX ++ ", got: " ++ toString (9099 : Nat))) := by
  have h1 := start_local_stream_validation ⟨true, true, true, "", none⟩ 9100 1 1 none rfl rfl rfl
  have h2 := start_local_stream_validation ⟨true, true, true, "", none⟩ 9199 100 30 none rfl rfl rfl
  have h3 := start_local_stream_validation ⟨true, true, true, "", none⟩ 9100 0 10 none rfl rfl rfl
  have h4 := start_local_stream_validation ⟨true, true, true, "", none⟩ 9100 50 31 none rfl rfl rfl
  have h5 := start_local_stream_validation ⟨true, true, true, "", none⟩ 9099 50 10 none rfl rfl rfl
  exact ⟨h1.1.mpr (by norm_num), h2.1.mpr (by norm_num),
    h3.2.1 (by norm_num), h4.2.2.1 (by norm_num) (by norm_num),
    h5.2.2.2 (by norm_num) (by norm_num) (by norm_num)⟩

-- =============================================================================
-- C5
-- =============================================================================

/-- C5: at most one stream: with a non-empty slot `start_local_stream`
fails with the conflict error and leaves the existing session unchanged;
`stop_local_stream` on an empty slot fails with the conflict error; a
successful `stop_local_stream` empties the slot. -/
theorem stream_slot_conflict (env : StreamEnv) (s : StreamSession) (port : Nat)
    (quality : Int) (fps : Nat) (d : Option Nat) :
    start_local_stream env (some s) port quality fps d =
      (Except.error "Stream already running. Stop it first.", some s) ∧
    stop_local_stream (some s) = (Except.ok (), none) ∧
    stop_local_stream none = (Except.error "No stream is running", none) := by
  refine ⟨?_, rfl, rfl⟩
  simp [start_local_stream]

-- =============================================================================
-- Frame-transform lemmas
-- =============================================================================

lemma toNat_ofNat8 (n : Nat) : (UInt8.ofNat n).toNat = n % 256 := rfl

lemma length_flatMap_range (g : Nat → List UInt8) (k : Nat)
    (hg : ∀ i, (g i).length = k) :
    ∀ n, ((List.range n).flatMap g).length = n * k := by
  intro n
  induction n with
  | zero => simp
  | succ m ih =>
    rw [List.range_succ, List.flatMap_append, List.length_append, ih,
      List.flatMap_cons, List.flatMap_nil, List.append_nil, hg]
    ring

lemma getElem?_flatMap_range (g : Nat → List UInt8) (k : Nat)
    (hg : ∀ i, (g i).length = k) :
    ∀ n j c, j < n → c < k → ((List.range n).flatMap g)[j * k + c]? = (g j)[c]? := by
  intro n
  induction n with
  | zero => intro j c hj hc; exact absurd hj (Nat.not_lt_zero j)
  | succ m ih =>
    intro j c hj hc
    rw [List.range_succ, List.flatMap_append]
    rcases Nat.lt_succ_iff_lt_or_eq.mp hj with h | h
    · have hlt : j * k + c < ((List.range m).flatMap g).length := by
        rw [length_flatMap_range g k hg m]
        calc j * k + c < j * k + k := by omega
          _ = (j + 1) * k := by ring
          _ ≤ m * k := mul_le_mul_right' h k
      rw [List.getElem?_append_left hlt]
      exact ih j c h hc
    · subst h
      rw [List.getElem?_append_right (by rw [length_flatMap_range g k hg j]; omega)]
      rw [length_flatMap_range g k hg j]
      have hidx : j * k + c - j * k = c := by omega
      rw [hidx, List.flatMap_cons, List.flatMap_nil, List.append_nil]

lemma frameScale_pos (w : Nat) : 1 ≤ frameScale w := by
  simp only [frameScale, STREAM_MAX_WIDTH]
  split
  · omega
  · exact Nat.le_refl 1

lemma frameScale_eq_one (w : Nat) (h : w ≤ 960) : frameScale w = 1 := by
  simp only [frameScale, STREAM_MAX_WIDTH]
  rw [if_neg (by omega)]

lemma frameScale_ceil (w : Nat) (h : 960 < w) :
    w ≤ 960 * frameScale w ∧ 960 * (frameScale w - 1) < w := by
  simp only [frameScale, STREAM_MAX_WIDTH]
  rw [if_pos (by omega)]
  constructor <;> omega

lemma dst_width_le (w : Nat) : w / frameScale w ≤ 960 := by
  by_cases h : 960 < w
  · have h1 := (frameScale_ceil w h).1
    have h2 : 1 ≤ frameScale w := frameScale_pos w
    calc w / frameScale w ≤ (960 * frameScale w) / frameScale w := Nat.div_le_div_right h1
      _ = 960 := Nat.mul_div_cancel 960 (by omega)
  · rw [frameScale_eq_one w (by omega), Nat.div_one]
    omega

lemma processFrame_eq (f : BGRAFrame) (hw : f.width ≠ 0) (hh : f.height ≠ 0)
    (hlen : f.width * f.height * 4 ≤ f.data.length) :
    processFrame f = some (u16leBytes (f.width / frameScale f.width)
      ++ u16leBytes (f.height / frameScale f.width) ++ framePixels f) := by
  unfold processFrame
  rw [if_neg (by omega), if_neg (by omega)]

lemma framePixels_length (f : BGRAFrame) :
    (framePixels f).length =
      (f.width / frameScale f.width) * (f.height / frameScale f.width) * 4 := by
  unfold framePixels
  split
  · next h1 =>
    have hl := length_flatMap_range (fun i => bgraPixelAt f.data (i * 4)) 4
      (fun i => rfl) (f.width * f.height)
    rw [hl, h1]
    simp [Nat.div_one]
  · next h1 =>
    have hin : ∀ y, ((List.range (f.width / frameScale f.width)).flatMap (fun x =>
        bgraPixelAt f.data
          ((y * frameScale f.width * f.width + x * frameScale f.width) * 4))).length =
        (f.width / frameScale f.width) * 4 := fun y =>
      length_flatMap_range (fun x => bgraPixelAt f.data
        ((y * frameScale f.width * f.width + x * frameScale f.width) * 4)) 4
        (fun x => rfl) (f.width / frameScale f.width)
    have hl := length_flatMap_range _ ((f.width / frameScale f.width) * 4) hin
      (f.height / frameScale f.width)
    rw [hl]
    ring

lemma readU16LE_header_first (a b : Nat) (rest : List UInt8) :
    readU16LE (u16leBytes a ++ u16leBytes b ++ rest) 0 = a % 65536 := by
  simp only [readU16LE, u16leBytes, List.cons_append, List.nil_append,
    List.getD_cons_zero, List.getD_cons_succ, toNat_ofNat8]
  omega

lemma readU16LE_header_second (a b : Nat) (rest : List UInt8) :
    readU16LE (u16leBytes a ++ u16leBytes b ++ rest) 2 = b % 65536 := by
  simp only [readU16LE, u16leBytes, List.cons_append, List.nil_append,
    List.getD_cons_zero, List.getD_cons_succ, toNat_ofNat8]
  omega

-- =============================================================================
-- C6
-- =============================================================================

/-- C6 (amended): every frame published by the capture loop whose
downscaled height fits in a u16 (`height / scale < 65536`) satisfies the
wire-format invariant: its length is `4 + w16 * h16 * 4` where `w16`,`h16`
are the little-endian u16 header reads, and `w16 ≤ 960`.  (For larger
heights the `dst_h as u16` header write truncates mod 65536 and the length
identity fails, see the counterexample; the width bound holds always.) -/
theorem frame_wire_format (f : BGRAFrame) (buf : List UInt8)
    (hpub : processFrame f = some buf)
    (hfit : f.height / frameScale f.width < 65536) :
    buf.length = 4 + readU16LE buf 0 * readU16LE buf 2 * 4 ∧
    readU16LE buf 0 ≤ 960 := by
  unfold processFrame at hpub
  split at hpub
  · exact absurd hpub (by simp)
  · split at hpub
    · exact absurd hpub (by simp)
    · injection hpub with hbuf
      subst hbuf
      have hdw : f.width / frameScale f.width ≤ 960 := dst_width_le f.width
      have e1 : f.width / frameScale f.width % 65536 = f.width / frameScale f.width :=
        Nat.mod_eq_of_lt (Nat.lt_of_le_of_lt hdw (by norm_num))
      have e2 : f.height / frameScale f.width % 65536 = f.height / frameScale f.width :=
        Nat.mod_eq_of_lt hfit
      constructor
      · rw [readU16LE_header_first, readU16LE_header_second,
          List.length_append, List.length_append, framePixels_length, e1, e2]
        simp only [u16leBytes, List.length_cons, List.length_nil]
      · rw [readU16LE_header_first, e1]
        exact hdw

theorem frame_wire_format_witness :
    (u16leBytes 2 ++ u16leBytes 2 ++ framePixels ⟨2, 2, List.replicate 16 0⟩).length =
      4 + readU16LE (u16leBytes 2 ++ u16leBytes 2 ++ framePixels ⟨2, 2, List.replicate 16 0⟩) 0
        * readU16LE (u16leBytes 2 ++ u16leBytes 2 ++ framePixels ⟨2, 2, List.replicate 16 0⟩) 2
        * 4 ∧
    readU16LE (u16leBytes 2 ++ u16leBytes 2 ++ framePixels ⟨2, 2, List.replicate 16 0⟩) 0 ≤ 960 :=
  frame_wire_format ⟨2, 2, List.replicate 16 0⟩ _ (by decide) (by decide)

/-- The concrete frame refuting the unamended C6: a validated 1 x 65536
BGRA frame (scale 1, so the destination height is 65536, which does not
fit in the u16 header field). -/
def cexFrame : BGRAFrame := ⟨1, 65536, List.replicate 262144 0⟩

/-- The byte buffer the capture loop publishes for `cexFrame`. -/
def cexBuf : List UInt8 := u16leBytes 1 ++ u16leBytes 65536 ++ framePixels cexFrame

/-- C6 counterexample: `cexFrame` passes the capture-loop guards and is
published as `cexBuf`, whose header reads back width 1 and height 0
(65536 truncated mod 65536), yet whose length is 262148; the claimed
identity would require the length to be `4 + 1 * 0 * 4 = 4`. -/
theorem frame_wire_format_counterexample :
    processFrame cexFrame = some cexBuf ∧
    readU16LE cexBuf 0 = 1 ∧
    readU16LE cexBuf 2 = 0 ∧
    cexBuf.length = 262148 ∧
    4 + readU16LE cexBuf 0 * readU16LE cexBuf 2 * 4 = 4 := by
  have hdata : cexFrame.data.length = 262144 := by
    show (List.replicate 262144 (0 : UInt8)).length = 262144
    exact List.length_replicate 262144 0
  have e1 : cexFrame.width / frameScale cexFrame.width = 1 := by
    show 1 / frameScale 1 = 1
    norm_num [frameScale, STREAM_MAX_WIDTH]
  have e2 : cexFrame.height / frameScale cexFrame.width = 65536 := by
    show 65536 / frameScale 1 = 65536
    norm_num [frameScale, STREAM_MAX_WIDTH]
  have h1 : processFrame cexFrame = some cexBuf := by
    have hpe := processFrame_eq cexFrame (by norm_num [cexFrame]) (by norm_num [cexFrame])
      (by rw [hdata]; norm_num [cexFrame])
    rw [hpe, e1, e2]
    rfl
  have h2 : readU16LE cexBuf 0 = 1 := by
    unfold cexBuf
    rw [readU16LE_header_first]
  have h3 : readU16LE cexBuf 2 = 0 := by
    unfold cexBuf
    rw [readU16LE_header_second]
  have h4 : cexBuf.length = 262148 := by
    unfold cexBuf
    rw [List.length_append, List.length_append, framePixels_length, e1, e2]
    norm_num [u16leBytes]
  exact ⟨h1, h2, h3, h4, by rw [h2, h3]⟩

-- =============================================================================
-- C7
-- =============================================================================

lemma getElem?_eq_some_getD (l : List UInt8) (n : Nat) (h : n < l.length) :
    l[n]? = some (l.getD n 0) := by
  rw [List.getD_eq_getElem?_getD, List.getElem?_eq_getElem h]
  rfl

lemma bgraPixelAt_getElem? (data : List UInt8) (si c : Nat) (hc : c < 4) :
    (bgraPixelAt data si)[c]? = some (data.getD (si + bgraSwap c) 0) := by
  interval_cases c <;> simp [bgraPixelAt, bgraSwap]

lemma srcIndex_lt (w h len scale x y c : Nat) (hs : 1 ≤ scale)
    (hx : x < w / scale) (hy : y < h / scale) (hc : c ≤ 3)
    (hlen : w * h * 4 ≤ len) :
    (y * scale * w + x * scale) * 4 + c < len := by
  have hx' : x + 1 ≤ w / scale := hx
  have hy' : y + 1 ≤ h / scale := hy
  have hxs : (x + 1) * scale ≤ w := (Nat.le_div_iff_mul_le (by omega)).mp hx'
  have hys : (y + 1) * scale ≤ h := (Nat.le_div_iff_mul_le (by omega)).mp hy'
  rw [Nat.succ_mul] at hxs hys
  have key : y * scale * w + x * scale + 1 ≤ w * h := by
    calc y * scale * w + x * scale + 1
        ≤ y * scale * w + w := by omega
      _ = (y * scale + 1) * w := by ring
      _ ≤ h * w := mul_le_mul_right' (by omega) w
      _ = w * h := Nat.mul_comm h w
  omega

/-- C7: for every validated BGRA frame (non-zero dimensions, buffer at
least `width*height*4`), the capture transform uses the downscale factor
`scale = ceil(width/960)` when `width > 960` and `scale = 1` otherwise
(characterised by `width ≤ 960*scale` and minimality), produces a
destination pixel region of dimensions `(width/scale) x (height/scale)`,
and output pixel `(x, y)` channel `c` (RGBA) equals source pixel
`(x*scale, y*scale)` channel `bgraSwap c` (B and R swapped), with every
source read in bounds of the frame buffer. -/
theorem capture_transform (f : BGRAFrame) (hw : 0 < f.width) (hh : 0 < f.height)
    (hlen : f.width * f.height * 4 ≤ f.data.length) :
    ((f.width ≤ 960 → frameScale f.width = 1) ∧
     (960 < f.width → f.width ≤ 960 * frameScale f.width ∧
        960 * (frameScale f.width - 1) < f.width)) ∧
    processFrame f = some (u16leBytes (f.width / frameScale f.width)
      ++ u16leBytes (f.height / frameScale f.width) ++ framePixels f) ∧
    (framePixels f).length =
      (f.width / frameScale f.width) * (f.height / frameScale f.width) * 4 ∧
    ∀ x y c, x < f.width / frameScale f.width → y < f.height / frameScale f.width →
      c < 4 →
      (y * frameScale f.width * f.width + x * frameScale f.width) * 4 + bgraSwap c
          < f.data.length ∧
      (framePixels f)[(y * (f.width / frameScale f.width) + x) * 4 + c]? =
        f.data[(y * frameScale f.width * f.width + x * frameScale f.width) * 4
          + bgraSwap c]? := by
  refine ⟨⟨fun h960 => frameScale_eq_one f.width h960,
           fun h960 => frameScale_ceil f.width h960⟩,
         processFrame_eq f (by omega) (by omega) hlen,
         framePixels_length f, ?_⟩
  intro x y c hx hy hc
  have hsp : 1 ≤ frameScale f.width := frameScale_pos f.width
  have hsw3 : bgraSwap c ≤ 3 := by interval_cases c <;> norm_num [bgraSwap]
  have hb : (y * frameScale f.width * f.width + x * frameScale f.width) * 4
      + bgraSwap c < f.data.length :=
    srcIndex_lt f.width f.height f.data.length (frameScale f.width) x y
      (bgraSwap c) hsp hx hy hsw3 hlen
  refine ⟨hb, ?_⟩
  by_cases hs1 : frameScale f.width = 1
  · simp only [hs1, Nat.div_one, Nat.mul_one] at hx hy hb ⊢
    have hj : y * f.width + x < f.width * f.height := by
      have h1 : y * f.width + x + 1 ≤ (y + 1) * f.width := by
        rw [Nat.succ_mul]; omega
      have h2 : (y + 1) * f.width ≤ f.height * f.width := mul_le_mul_right' (by omega) _
      calc y * f.width + x < (y + 1) * f.width := by omega
        _ ≤ f.height * f.width := h2
        _ = f.width * f.height := Nat.mul_comm _ _
    unfold framePixels
    rw [if_pos hs1]
    rw [getElem?_flatMap_range (fun i => bgraPixelAt f.data (i * 4)) 4 (fun i => rfl)
      (f.width * f.height) (y * f.width + x) c hj hc]
    rw [bgraPixelAt_getElem? f.data ((y * f.width + x) * 4) c hc]
    rw [getElem?_eq_some_getD f.data ((y * f.width + x) * 4 + bgraSwap c) hb]
  · unfold framePixels
    rw [if_neg hs1]
    have hin : ∀ i, ((List.range (f.width / frameScale f.width)).flatMap (fun x' =>
        bgraPixelAt f.data
          ((i * frameScale f.width * f.width + x' * frameScale f.width) * 4))).length =
        (f.width / frameScale f.width) * 4 := fun i =>
      length_flatMap_range (fun x' => bgraPixelAt f.data
        ((i * frameScale f.width * f.width + x' * frameScale f.width) * 4)) 4
        (fun x' => rfl) (f.width / frameScale f.width)
    have hidx : (y * (f.width / frameScale f.width) + x) * 4 + c =
        y * ((f.width / frameScale f.width) * 4) + (x * 4 + c) := by ring
    rw [hidx]
    rw [getElem?_flatMap_range _ ((f.width / frameScale f.width) * 4) hin
      (f.height / frameScale f.width) y (x * 4 + c) hy (by omega)]
    rw [getElem?_flatMap_range (fun x' => bgraPixelAt f.data
        ((y * frameScale f.width * f.width + x' * frameScale f.width) * 4)) 4
        (fun x' => rfl) (f.width / frameScale f.width) x c hx hc]
    rw [bgraPixelAt_getElem? f.data
      ((y * frameScale f.width * f.width + x * frameScale f.width) * 4) c hc]
    rw [getElem?_eq_some_getD f.data
      ((y * frameScale f.width * f.width + x * frameScale f.width) * 4 + bgraSwap c) hb]

theorem capture_transform_witness :
    processFrame ⟨2, 2, List.replicate 16 0⟩ =
      some (u16leBytes (2 / frameScale 2) ++ u16leBytes (2 / frameScale 2)
        ++ framePixels ⟨2, 2, List.replicate 16 0⟩) :=
  (capture_transform ⟨2, 2, List.replicate 16 0⟩ (by decide) (by decide)
    (by decide)).2.1

-- =============================================================================
-- C8
-- =============================================================================

lemma is_allowed_origin_iff (o : String) :
    is_allowed_origin o = true ↔
      (o = "tauri://localhost" ∨ o = "https://tauri.localhost" ∨
       o = "http://localhost:1420") := by
  constructor
  · intro h
    simp only [is_allowed_origin, ALLOWED_ORIGINS, List.any_cons, List.any_nil,
      Bool.or_eq_true, beq_iff_eq, Bool.false_eq_true, or_false] at h
    rcases h with h | h | h
    · exact Or.inl h.symm
    · exact Or.inr (Or.inl h.symm)
    · exact Or.inr (Or.inr h.symm)
  · intro h
    rcases h with h | h | h <;> subst h <;> rfl

/-- C8: the WebSocket handshake authorization is an exact-match allowlist:
it succeeds iff the Origin header (absent treated as empty) equals exactly
one of the three allowlisted strings; any other origin produces an HTTP
403 result and leaves the client counter untouched; on success the counter
is incremented, and once the per-client loop exits (every exit path) the
single decrement brings the net change back to zero. -/
theorem ws_origin_policy (origin : Option String) (events : List ClientEvent) :
    (((handle_ws_client origin events).1 = none) ↔
      (origin.getD "" = "tauri://localhost" ∨ origin.getD "" = "https://tauri.localhost" ∨
       origin.getD "" = "http://localhost:1420")) ∧
    ((handle_ws_client origin events).1 = none ∨
     (handle_ws_client origin events).1 = some 403) ∧
    ((handle_ws_client origin events).1 = some 403 →
      (handle_ws_client origin events).2 = 0) ∧
    ((handle_ws_client origin events).1 = none → loopExits events = true →
      (handle_ws_client origin events).2 = 0) ∧
    ((handle_ws_client origin events).1 = none → loopExits events = false →
      (handle_ws_client origin events).2 = 1) := by
  by_cases ha : is_allowed_origin (origin.getD "") = true
  · have hiff := (is_allowed_origin_iff (origin.getD "")).mp ha
    have hh : handle_ws_client origin events =
        (none, if loopExits events then (0 : Int) else 1) := by
      simp [handle_ws_client, ha]
    refine ⟨?_, ?_, ?_, ?_, ?_⟩
    · rw [hh]
      exact iff_of_true rfl hiff
    · rw [hh]
      exact Or.inl rfl
    · rw [hh]
      intro hcon
      exact absurd hcon (by simp)
    · rw [hh]
      intro _ hexit
      simp [hexit]
    · rw [hh]
      intro _ hexit
      simp [hexit]
  · have hne : ¬(origin.getD "" = "tauri://localhost" ∨
        origin.getD "" = "https://tauri.localhost" ∨
        origin.getD "" = "http://localhost:1420") :=
      fun hcon => ha ((is_allowed_origin_iff _).mpr hcon)
    have hh : handle_ws_client origin events = (some 403, 0) := by
      simp [handle_ws_client, ha]
    refine ⟨?_, ?_, ?_, ?_, ?_⟩
    · rw [hh]
      exact iff_of_false (by simp) hne
    · rw [hh]
      exact Or.inr rfl
    · rw [hh]
      intro _
      rfl
    · rw [hh]
      intro hcon
      exact absurd hcon (by simp)
    · rw [hh]
      intro hcon
      exact absurd hcon (by simp)

theorem ws_origin_policy_witness :
    (handle_ws_client (some "tauri://localhost") [ClientEvent.shutdownSignal true]).1 = none ∧
    (handle_ws_client (some "tauri://localhost") [ClientEvent.shutdownSignal true]).2 = 0 ∧
    (handle_ws_client (some "http://evil.example") []).1 = some 403 ∧
    (handle_ws_client (some "http://evil.example") []).2 = 0 := by
  have hgood := ws_origin_policy (some "tauri://localhost") [ClientEvent.shutdownSignal true]
  have hbad := ws_origin_policy (some "http://evil.example") []
  have h1 : (handle_ws_client (some "tauri://localhost")
      [ClientEvent.shutdownSignal true]).1 = none :=
    hgood.1.mpr (Or.inl rfl)
  have h2 := hgood.2.2.2.1 h1 (by decide)
  have h3 : (handle_ws_client (some "http://evil.example") []).1 = some 403 := by
    rcases hbad.2.1 with h | h
    · exact absurd (hbad.1.mp h) (by decide)
    · exact h
  have h4 := hbad.2.2.1 h3
  exact ⟨h1, h2, h3, h4⟩

theorem stream_slot_conflict_witness :
    start_local_stream ⟨true, true, true, "", none⟩ (some ⟨9100, 10, 75, none, 0⟩)
      9100 75 10 none =
      (Except.error "Stream already running. Stop it first.", some ⟨9100, 10, 75, none, 0⟩) ∧
    stop_local_stream (some ⟨9100, 10, 75, none, 0⟩) = (Except.ok (), none) ∧
    stop_local_stream none = (Except.error "No stream is running", none) :=
  stream_slot_conflict ⟨true, true, true, "", none⟩ ⟨9100, 10, 75, none, 0⟩ 9100 75 10 none

theorem inject_commands_empty_ok_witness :
    inject_commands ⟨[]⟩ "any" [] = (Except.ok (), ⟨[]⟩) :=
  inject_commands_empty_ok ⟨[]⟩ "any"
